import Mathlib

/-!
Verification of the tuannha-blog repository: the Post data model, the home
page listing (sort by publication date descending, render one card per
post), the PostCard tag-row logic, and the static navigation surface.

The embedding follows the TypeScript sources:
- the Home page component sorts allPosts with the date-fns comparator
  compareDesc applied to the parsed publication dates and maps PostCard
  over the result;
- PostCard renders a tag row only when the optional tag list is present
  and non-empty, mapping the Tag chip component over the tags in order;
- Navigation and the VitePress site config each declare a fixed list of
  links; Profile and Footer render fixed content.

The JavaScript Array.prototype.sort is a stable sort (ES2019); it is
modelled by the stable List.insertionSort from Mathlib, applied to the
comparator-induced relation.
-/

namespace Blog

/-- A blog post record: title, ISO-8601 date string, description, url and
an optional ordered list of tag labels. -/
structure Post where
  title : String
  date : String
  description : String
  url : String
  tags : Option (List String)
deriving DecidableEq, Repr

/-- Split a character list into the dash-separated groups, as the date
string YYYY-MM-DD is split into year, month and day parts. -/
def splitOnDash : List Char → List (List Char)
  | [] => [[]]
  | c :: cs =>
    if c = '-' then [] :: splitOnDash cs
    else
      match splitOnDash cs with
      | [] => [[c]]
      | g :: gs => (c :: g) :: gs

/-- Read a non-empty all-digit character group as a decimal number. -/
def charsToNat? (cs : List Char) : Option Nat :=
  if cs ≠ [] ∧ cs.all Char.isDigit then
    some (cs.foldl (fun n c => n * 10 + (c.toNat - 48)) 0)
  else none

/-- Parse an ISO-8601 calendar date string of the form YYYY-MM-DD into its
numeric components, as new Date does for the post date strings. -/
def parseISODate (s : String) : Option (Nat × Nat × Nat) :=
  match splitOnDash s.toList with
  | [y, m, d] =>
    match charsToNat? y, charsToNat? m, charsToNat? d with
    | some yn, some mn, some dn => some (yn, mn, dn)
    | _, _, _ => none
  | _ => none

/-- The sort key of a post: its parsed calendar date packed into a single
natural number that is monotone in chronological order (months and days
are below 100). An unparsable date gets the default key 0. -/
def dateKey (p : Post) : Nat :=
  match parseISODate p.date with
  | some (y, m, d) => y * 10000 + m * 100 + d
  | none => 0

/-- The date-fns compareDesc comparator on timestamps: negative when the
first date is later, positive when earlier, zero when equal. -/
def compareDesc (a b : Nat) : Int :=
  if b < a then -1 else if a < b then 1 else 0

/-- The ordering the Home page comparator induces on posts: post a may
precede post b exactly when compareDesc does not order a after b. -/
def postLE (a b : Post) : Prop :=
  compareDesc (dateKey a) (dateKey b) ≤ 0

instance : DecidableRel postLE := fun a b => by
  unfold postLE; infer_instance

/-- The comparator ordering is descending order of date keys. -/
theorem postLE_iff (a b : Post) : postLE a b ↔ dateKey b ≤ dateKey a := by
  unfold postLE compareDesc
  rcases Nat.lt_trichotomy (dateKey a) (dateKey b) with h | h | h
  · simp [Nat.lt_asymm h, h, Nat.not_le.mpr h]
  · simp [h]
  · simp [h, Nat.lt_asymm h, Nat.le_of_lt h]

instance : IsTotal Post postLE :=
  ⟨fun a b => by rw [postLE_iff, postLE_iff]; exact (Nat.le_total _ _).symm⟩

instance : IsTrans Post postLE :=
  ⟨fun a b c hab hbc => by
    rw [postLE_iff] at *
    exact Nat.le_trans hbc hab⟩

/-- The Home page sort: allPosts.sort with the compareDesc comparator on
the parsed dates, modelled by the stable insertion sort. -/
def sortPosts (ps : List Post) : List Post :=
  ps.insertionSort postLE

/-- A tag chip rendered by the Tag component: a green rounded box holding
the tag label. -/
structure Chip where
  label : String
deriving DecidableEq, Repr

/-- The Tag component: renders one chip whose text is the tag label. -/
def Tag (tag : String) : Chip :=
  ⟨tag⟩

/-- The output of PostCard: the time element, the linked title, the
optional tag row, and the description paragraph. -/
structure Card where
  time : String
  cardTitle : String
  href : String
  tagRow : Option (List Chip)
  descriptionText : String
deriving DecidableEq, Repr

/-- The PostCard component: renders date, linked title, a tag row only
when the tag list is present and non-empty, and the description. -/
def PostCard (post : Post) : Card :=
  { time := post.date
    cardTitle := post.title
    href := post.url
    tagRow :=
      match post.tags with
      | some ts => if ts.length > 0 then some (ts.map Tag) else none
      | none => none
    descriptionText := post.description }

/-- The Home page listing: sort the materialized posts by descending
publication date and render one PostCard per post. -/
def Home (allPosts : List Post) : List Card :=
  (sortPosts allPosts).map PostCard

/-- A navigation link: visible text and target route. -/
structure NavLink where
  text : String
  href : String
deriving DecidableEq, Repr

/-- The Navigation component of the Next.js front-end: a fixed list of
four links. -/
def Navigation (_ : Unit) : List NavLink :=
  [⟨"Home", "/"⟩, ⟨"Post", "/posts"⟩, ⟨"Tags", "/tags"⟩, ⟨"About", "/about"⟩]

/-- The top-level nav declared in the VitePress site config. -/
def vitepressNav : List NavLink :=
  [⟨"Home", "/"⟩, ⟨"DevOps", "/devops"⟩, ⟨"Backend", "/backend"⟩,
   ⟨"Me", "/me"⟩, ⟨"Sponsor", "/sponsor"⟩]

/-- All top-level routes reachable from the two navigation surfaces. -/
def allNavRoutes : List String :=
  (Navigation () ++ vitepressNav).map NavLink.href

/-- The output of the Profile component: avatar alt text and the handle. -/
structure ProfileView where
  imageAlt : String
  handle : String
deriving DecidableEq, Repr

/-- The Profile component: fixed avatar image and the @tuannha handle. -/
def Profile (_ : Unit) : ProfileView :=
  ⟨"profile", "@tuannha"⟩

/-- The output of the Footer component: its copyright line. -/
structure FooterView where
  copyrightText : String
deriving DecidableEq, Repr

/-- The Footer component: a fixed copyright notice. -/
def Footer (_ : Unit) : FooterView :=
  ⟨"© tuannha 2024. All right reserved."⟩

/-- A sample post dated 2024-01-01 with no tags field. -/
def postJan : Post :=
  { title := "New Year", date := "2024-01-01", description := "first post",
    url := "/posts/new-year", tags := none }

/-- A sample post dated 2024-06-15 with one tag. -/
def postJun : Post :=
  { title := "Summer", date := "2024-06-15", description := "second post",
    url := "/posts/summer", tags := some ["backend"] }

/-- A sample post dated 2023-12-31 with an empty tag list. -/
def postDec : Post :=
  { title := "Eve", date := "2023-12-31", description := "third post",
    url := "/posts/eve", tags := some [] }

/-- A sample post carrying the two tags backend and devops. -/
def postTagged : Post :=
  { title := "Tagged", date := "2024-06-15", description := "tagged post",
    url := "/posts/tagged", tags := some ["backend", "devops"] }

/-- C1: for every finite list of Post records, the home page listing
renders exactly one card per post (same length as the input), and the
sorted sequence it renders is ordered by publication date descending: any
post A appearing before a post B has dateKey A ≥ dateKey B. -/
theorem home_one_card_per_post_sorted_desc (ps : List Post)
    (h : ∀ p ∈ ps, (parseISODate p.date).isSome) :
    (Home ps).length = ps.length ∧
    (sortPosts ps).Pairwise fun a b => dateKey b ≤ dateKey a := by
  refine ⟨?_, ?_⟩
  · simp only [Home, List.length_map]
    exact (List.perm_insertionSort postLE ps).length_eq
  · exact (List.sorted_insertionSort postLE ps).imp fun hab => (postLE_iff _ _).mp hab

/-- Witness for C1 at a concrete three-post list with valid dates. -/
theorem home_one_card_per_post_sorted_desc_witness :
    (∀ p ∈ [postJan, postJun, postDec], (parseISODate p.date).isSome) ∧
    ((Home [postJan, postJun, postDec]).length = [postJan, postJun, postDec].length ∧
      (sortPosts [postJan, postJun, postDec]).Pairwise fun a b => dateKey b ≤ dateKey a) :=
  ⟨by decide, home_one_card_per_post_sorted_desc [postJan, postJun, postDec] (by decide)⟩

/-- Mapping the Tag component over a tag list and reading the chip labels
back gives the original tags in order. -/
theorem map_label_map_tag (ts : List String) : (ts.map Tag).map Chip.label = ts := by
  induction ts with
  | nil => rfl
  | cons t ts ih => simpa [Tag] using ih

/-- C2: for a post whose tag list is present, the tag row is rendered iff
the tag list is non-empty, and when non-empty it holds exactly one chip
per tag, whose labels are the tags in input order. -/
theorem postCard_tagRow_iff_nonempty (p : Post) (ts : List String)
    (h : p.tags = some ts) :
    ((PostCard p).tagRow = none ↔ ts = []) ∧
    (ts ≠ [] → (PostCard p).tagRow = some (ts.map Tag)) ∧
    (ts.map Tag).length = ts.length ∧ (ts.map Tag).map Chip.label = ts := by
  have htr : (PostCard p).tagRow =
      if ts.length > 0 then some (ts.map Tag) else none := by
    simp [PostCard, h]
  refine ⟨?_, ?_, by simp, ?_⟩
  · rw [htr]; cases ts <;> simp
  · intro hne
    rw [htr, if_pos (List.length_pos.mpr hne)]
  · exact map_label_map_tag ts

/-- Witness for C2 at a concrete post with one tag. -/
theorem postCard_tagRow_iff_nonempty_witness :
    postJun.tags = some ["backend"] ∧
    (((PostCard postJun).tagRow = none ↔ (["backend"] : List String) = []) ∧
      ((["backend"] : List String) ≠ [] →
        (PostCard postJun).tagRow = some (["backend"].map Tag)) ∧
      (["backend"].map Tag).length = (["backend"] : List String).length ∧
      (["backend"].map Tag).map Chip.label = ["backend"]) :=
  ⟨rfl, postCard_tagRow_iff_nonempty postJun ["backend"] rfl⟩

/-- C3: with zero posts the home page listing renders the empty sequence;
the listing is a total function, so no error can arise. -/
theorem home_empty_renders_empty : Home [] = [] := rfl

/-- C4: the listing never updates or deletes a post: its sorted output is
a permutation of the input, so it contains exactly the input records, each
with all fields (title, date, description, url, tags) unchanged, and a
record is in the output iff it is in the input. -/
theorem home_frame_preserves_posts (ps : List Post) :
    (sortPosts ps).Perm ps ∧ ∀ p : Post, p ∈ sortPosts ps ↔ p ∈ ps :=
  ⟨List.perm_insertionSort postLE ps,
    fun _ => (List.perm_insertionSort postLE ps).mem_iff⟩

/-- C5: the union of the two navigation surfaces (the Next.js Navigation
component and the VitePress nav config) reaches exactly the routes Home,
Posts, Tags, About, DevOps, Backend, Me and Sponsor. -/
theorem nav_surface_exact :
    (∀ r ∈ allNavRoutes,
      r ∈ ["/", "/posts", "/tags", "/about", "/devops", "/backend", "/me", "/sponsor"]) ∧
    (∀ r ∈ (["/", "/posts", "/tags", "/about", "/devops", "/backend", "/me", "/sponsor"] : List String),
      r ∈ allNavRoutes) := by
  decide

/-- C6: three posts dated 2024-01-01, 2024-06-15 and 2023-12-31, given in
that order, are rendered in the order 2024-06-15, 2024-01-01, 2023-12-31. -/
theorem home_example_order :
    Home [postJan, postJun, postDec] =
      [PostCard postJun, PostCard postJan, PostCard postDec] ∧
    postJan.date = "2024-01-01" ∧ postJun.date = "2024-06-15" ∧
    postDec.date = "2023-12-31" := by
  decide

/-- C7: a post with tags backend and devops renders exactly two tag chips,
labeled backend then devops. -/
theorem postCard_chips_example :
    (PostCard postTagged).tagRow = some [Tag "backend", Tag "devops"] ∧
    (Tag "backend").label = "backend" ∧ (Tag "devops").label = "devops" := by
  decide

/-- C8: Navigation, Profile and Footer are pure and deterministic: any two
invocations (their props type is Unit, as they take no props) produce
identical output, independent of any state. -/
theorem components_pure_deterministic (u v : Unit) :
    Navigation u = Navigation v ∧ Profile u = Profile v ∧ Footer u = Footer v :=
  ⟨rfl, rfl, rfl⟩

/-- C9: a post whose tags field is absent renders with the tag row
omitted, and the whole card is identical to the card of the same post with
an empty tag list. -/
theorem postCard_tags_absent (p : Post) (h : p.tags = none) :
    (PostCard p).tagRow = none ∧
    PostCard p = PostCard { p with tags := some [] } := by
  simp [PostCard, h]

/-- Witness for C9 at a concrete post without a tags field. -/
theorem postCard_tags_absent_witness :
    postJan.tags = none ∧
    ((PostCard postJan).tagRow = none ∧
      PostCard postJan = PostCard { postJan with tags := some [] }) :=
  ⟨rfl, postCard_tags_absent postJan rfl⟩

/-- C10: the home page sort is idempotent on lists of posts with valid
dates: sorting the sorted output returns it unchanged. -/
theorem sortPosts_idempotent (ps : List Post)
    (h : ∀ p ∈ ps, (parseISODate p.date).isSome) :
    sortPosts (sortPosts ps) = sortPosts ps :=
  List.Sorted.insertionSort_eq (List.sorted_insertionSort postLE ps)

/-- Witness for C10 at a concrete three-post list with valid dates. -/
theorem sortPosts_idempotent_witness :
    (∀ p ∈ [postJun, postJan, postTagged], (parseISODate p.date).isSome) ∧
    sortPosts (sortPosts [postJun, postJan, postTagged]) =
      sortPosts [postJun, postJan, postTagged] :=
  ⟨by decide, sortPosts_idempotent [postJun, postJan, postTagged] (by decide)⟩

end Blog
